import Mathlib

/-!
Verification development for the stateless multi-tenant MCP server.

The definitions below are a shallow embedding of the server's source:
the JWT verifier (jwt-verifier.js), the HTTP transport and request
pipeline (transport.js), the per-request tool registry (mcp-server.js),
the whoami tool (tools/whoami.js), the tenant credential vendor
(services/dynamoDb.ts) and the prompt template engine (prompts.js).
String-level operations are modelled on character lists so that every
definition evaluates inside the kernel; base64 decoding, JSON parsing
and RS256 signature checking are abstracted into a per-token oracle
describing their outcome, exactly at the granularity the source
observes them.
-/

/-! ## JavaScript-style string helpers -/

/-- Whitespace characters removed by a JavaScript trim on the strings
this server handles. -/
def jsWhitespace (c : Char) : Bool :=
  c = ' ' || c = '\t' || c = '\n' || c = '\r' || c = '\x0b' || c = '\x0c'

/-- Trim on character lists: drop whitespace from both ends. -/
def trimL (l : List Char) : List Char :=
  ((l.dropWhile jsWhitespace).reverse.dropWhile jsWhitespace).reverse

/-- JavaScript falsiness of an optional string claim: absent or empty. -/
def jsFalsyOpt : Option String → Bool
  | none => true
  | some s => s = ""

/-- JavaScript a-or-else-b projection, as in userData.sub or "anonymous":
the default is taken when the claim is absent or empty. -/
def jsOr (o : Option String) (d : String) : String :=
  match o with
  | none => d
  | some s => if s = "" then d else s

/-- Two-level JavaScript fallback, as in custom tenantId, then tenantId,
then a default. -/
def jsOr2 (a b : Option String) (d : String) : String :=
  jsOr a (jsOr b d)

/-- Substring occurrence test on character lists, used to model the
JavaScript err.message.includes checks of the pipeline's catch block. -/
def listIsInfix (pat : List Char) : List Char → Bool
  | [] => pat.isEmpty
  | c :: t => pat.isPrefixOf (c :: t) || listIsInfix pat t

/-- Substring occurrence on strings. -/
def strContains (s pat : String) : Bool :=
  listIsInfix pat.data s.data

/-! ## Token structure oracle

A bearer token is a string; what the source observes about it is:
whether splitting on a dot yields at least two segments, whether the
first segment base64-decodes and JSON-parses to a JOSE header (and that
header's alg and kid claims), whether jwt.decode returns a payload, and
whether the full RS256 + issuer + audience verification against the
configured Cognito pool succeeds. These outcomes are collected in a
TokenMeta record, supplied per raw token string by an oracle. -/

/-- Decoded JOSE header claims inspected by the source. -/
structure JoseHeader where
  alg : Option String
  kid : Option String
deriving DecidableEq

/-- Decoded JWT payload claims projected by the source. -/
structure Payload where
  sub : Option String
  customTenantId : Option String
  tenantId : Option String
  customTenantTier : Option String
  tenantTier : Option String
deriving DecidableEq

/-- Verification failure classes of the jsonwebtoken library, as
distinguished by the processJwt error mapping. -/
inductive VerifyErr where
  | expired
  | invalidSignature
  | notBefore
  | signingKey
  | other
deriving DecidableEq

/-- Outcome of the structural and cryptographic operations on one raw
token string: split, header decode, payload decode, verification. -/
structure TokenMeta where
  partsGE2 : Bool
  headerDecode : Option JoseHeader
  payload : Option Payload
  verified : Bool
  verifyErr : VerifyErr
deriving DecidableEq

/-- Server configuration relevant to the claims: whether the Cognito
user pool id is set, enabling real verification. -/
structure Config where
  cognitoConfigured : Bool
deriving DecidableEq

/-! ## JWT verifier (jwt-verifier.js) -/

/-- Token extraction from the Authorization header, as in extractToken:
require the Bearer prefix, take the remainder, trim it, and collapse an
empty result to null. -/
def extractToken (authHeader : Option String) : Option String :=
  match authHeader with
  | none => none
  | some h =>
    if ("Bearer ".data).isPrefixOf h.data then
      let t := String.mk (trimL (h.data.drop 7))
      if t = "" then none else some t
    else none

/-- Unsigned-token classifier, as in isUnsignedToken: empty or
whitespace-only tokens, tokens with fewer than two dot-segments, and
tokens whose header does not decode are unsigned; otherwise the token
is unsigned when alg is the string none, alg is falsy, or kid is falsy. -/
def isUnsignedToken (raw : String) (m : TokenMeta) : Bool :=
  if (trimL raw.data).isEmpty then true
  else if !m.partsGE2 then true
  else match m.headerDecode with
    | none => true
    | some h => h.alg == some "none" || jsFalsyOpt h.alg || jsFalsyOpt h.kid

/-- Authentication context returned by processJwt. -/
structure AuthContext where
  user : Option Payload
  token : String
  userId : String
  tenantId : String
  tenantTier : String
deriving DecidableEq

/-- Anonymous context, as in createAnonymousAuth. -/
def createAnonymousAuth : AuthContext :=
  { user := none, token := "", userId := "anonymous", tenantId := "", tenantTier := "basic" }

/-- Claim projection shared by the unsigned, verified and decode-only
paths of processJwt. -/
def authFromPayload (p : Payload) (raw : String) : AuthContext :=
  { user := some p
    token := raw
    userId := jsOr p.sub "anonymous"
    tenantId := jsOr2 p.customTenantId p.tenantId ""
    tenantTier := jsOr2 p.customTenantTier p.tenantTier "basic" }

/-- Errors thrown by processJwt, identified by the literal messages the
pipeline's catch block later greps. -/
inductive AuthErrorKind where
  | noToken
  | unsignedNotAccepted
  | tokenExpired
  | invalidSignature
  | notYetValid
  | signingKey
  | verifyOther
  | invalidFormat
deriving DecidableEq

/-- Literal messages of the errors thrown by processJwt. -/
def errMessage : AuthErrorKind → String
  | .noToken => "Authentication failed: No authorization token provided. Please include a valid Bearer token in the Authorization header."
  | .unsignedNotAccepted => "Authentication failed: Unsigned tokens are not accepted for this endpoint."
  | .tokenExpired => "Authentication failed: Your token has expired. Please log in again."
  | .invalidSignature => "Authentication failed: Invalid token format or signature."
  | .notYetValid => "Authentication failed: Token not yet valid."
  | .signingKey => "Authentication failed: Token was not issued by the expected authority."
  | .verifyOther => "Authentication failed: Token verification error."
  | .invalidFormat => "Authentication failed: Invalid token format."

/-- Mapping of jsonwebtoken failure classes to thrown errors, as in the
catch of the Cognito verification attempt inside processJwt. -/
def mapVerifyErr : VerifyErr → AuthErrorKind
  | .expired => .tokenExpired
  | .invalidSignature => .invalidSignature
  | .notBefore => .notYetValid
  | .signingKey => .signingKey
  | .other => .verifyOther

/-- Main JWT processing, as in processJwt: extract the token, detect
unsigned tokens, verify with Cognito when configured (falling back to
an unverified decode when anonymous access is allowed), or decode
without verification when Cognito is not configured. -/
def processJwt (cfg : Config) (oracle : String → TokenMeta)
    (bearer : Option String) (allowAnonymous : Bool) :
    Except AuthErrorKind AuthContext :=
  match extractToken bearer with
  | none =>
    if allowAnonymous then .ok createAnonymousAuth
    else .error .noToken
  | some raw =>
    let m := oracle raw
    if isUnsignedToken raw m then
      if !allowAnonymous then .error .unsignedNotAccepted
      else match m.payload with
        | none => .ok createAnonymousAuth
        | some p => .ok (authFromPayload p raw)
    else if cfg.cognitoConfigured then
      if m.verified then
        match m.payload with
        | some p => .ok (authFromPayload p raw)
        | none => .ok (authFromPayload ⟨none, none, none, none, none⟩ raw)
      else if allowAnonymous then
        match m.payload with
        | none => .ok createAnonymousAuth
        | some p => .ok (authFromPayload p raw)
      else .error (mapVerifyErr m.verifyErr)
    else
      match m.payload with
      | none =>
        if !allowAnonymous then .error .invalidFormat
        else .ok createAnonymousAuth
      | some p => .ok (authFromPayload p raw)

/-! ## Error table (mcp-errors.js)

Modelled from the spec: the mcp-errors module is imported by the
transport but its file is not part of the source tree; the spec
prescribes JSON-RPC-shaped error bodies with stable machine-readable
messages (missing-token, bad-auth-format, empty-token, token-expired,
token-invalid, unsigned-token-not-accepted) in a server-defined code
range, plus the generic internal and method-not-allowed envelopes. -/

/-- Named entries of the mcp-errors table referenced by the transport. -/
inductive McpErr where
  | missingToken
  | invalidAuthFormat
  | emptyToken
  | invalidToken
  | tokenVerificationFailed
  | internalServerError
  | methodNotAllowed
deriving DecidableEq

/-- Modelled from the spec: shape of one JSON-RPC error body served by
the transport outside a successful dispatch. -/
structure McpErrorBody where
  jsonrpc : String
  code : Int
  message : String
deriving DecidableEq

/-- Modelled from the spec: the body attached to each mcp-errors entry. -/
def mcpErrors : McpErr → McpErrorBody
  | .missingToken => { jsonrpc := "2.0", code := -32001, message := "missing-token" }
  | .invalidAuthFormat => { jsonrpc := "2.0", code := -32002, message := "bad-auth-format" }
  | .emptyToken => { jsonrpc := "2.0", code := -32003, message := "empty-token" }
  | .invalidToken => { jsonrpc := "2.0", code := -32004, message := "token-invalid" }
  | .tokenVerificationFailed => { jsonrpc := "2.0", code := -32005, message := "token-verification-failed" }
  | .internalServerError => { jsonrpc := "2.0", code := -32603, message := "internal-server-error" }
  | .methodNotAllowed => { jsonrpc := "2.0", code := -32000, message := "method-not-allowed" }

/-! ## Per-request tool registry (mcp-server.js) -/

/-- Tool names registered only for authenticated callers, in the order
mcp-server.js registers them. -/
def protectedToolNames : List String :=
  ["list_bookings", "find_flights", "book_flight", "book_hotel", "list_hotels", "loyalty_info"]

/-- Tool names of the per-request MCP server instance built by create:
whoami always, the protected tools when the caller is authenticated,
and the two fallback prompt tools only when the SDK server lacks prompt
registration support. -/
def registeredToolNames (isAuthenticated : Bool) (promptSupported : Bool) : List String :=
  "whoami" :: ((if isAuthenticated then protectedToolNames else []) ++
    (if promptSupported then [] else ["get_prompt", "list_prompts"]))

/-! ## The whoami tool (tools/whoami.js) -/

/-- Verification outcome of the whoami tool's own verifyToken: a
verified flag and the decoded payload it reports. The resolve-only
failure paths (empty token, undecodable token, missing Cognito
configuration, signing key errors, verification errors) all yield a
false flag. -/
def whoamiVerifyToken (cfg : Config) (m : TokenMeta) (raw : String) : Bool × Option Payload :=
  if (trimL raw.data).isEmpty then (false, none)
  else match m.payload with
    | none => (false, none)
    | some p =>
      if !cfg.cognitoConfigured then (false, some p)
      else if m.verified then (true, some p)
      else (false, some p)

/-- Result reported by the whoami tool, restricted to the fields the
claims inspect. -/
structure WhoamiResult where
  authenticated : Bool
  isUnsigned : Option Bool
  userTenantId : Option String
deriving DecidableEq

/-- The whoami tool handler: with no token it reports unauthenticated;
with a token it reports authenticated exactly when its own verification
succeeded and the token is not unsigned. -/
def whoami (cfg : Config) (oracle : String → TokenMeta) (tok : Option String) : WhoamiResult :=
  match tok with
  | none => { authenticated := false, isUnsigned := none, userTenantId := none }
  | some raw =>
    let m := oracle raw
    let tokenIsUnsigned := isUnsignedToken raw m
    let vr := whoamiVerifyToken cfg m raw
    { authenticated := vr.1 && !tokenIsUnsigned
      isUnsigned := some tokenIsUnsigned
      userTenantId := vr.2.map (fun p => jsOr2 p.customTenantId p.tenantId "") }

/-! ## Request pipeline (transport.js postRequestHandler) -/

/-- Methods accessible without authentication, as listed in the
transport's PUBLIC_METHODS constant. -/
def publicMethods : List String :=
  ["initialize", "notifications/initialized", "tools/list", "whoami"]

/-- One POST /mcp request body plus its Authorization header. -/
structure McpRequest where
  jsonrpcOk : Bool
  method : String
  toolName : Option String
  authHeader : Option String

/-- Detection of a tools/call of the whoami tool, the transport's
special public-endpoint case. -/
def isWhoamiCall (r : McpRequest) : Bool :=
  r.jsonrpcOk && r.method == "tools/call" && r.toolName == some "whoami"

/-- Public-endpoint decision of the transport: a listed public method,
or the whoami special case. -/
def isPublicEndpoint (r : McpRequest) : Bool :=
  (r.jsonrpcOk && publicMethods.contains r.method) || isWhoamiCall r

/-- Inline unsigned check the transport performs on public-endpoint
requests: unlike isUnsignedToken it leaves the flag false when the
token has fewer than two dot-segments, and sets it on a decode error. -/
def transportUnsignedCheck (m : TokenMeta) : Bool :=
  if !m.partsGE2 then false
  else match m.headerDecode with
    | none => true
    | some h => h.alg == some "none" || jsFalsyOpt h.alg || jsFalsyOpt h.kid

/-- Authentication phase of postRequestHandler: public endpoints run
processJwt with anonymous access allowed (errors collapse to an
anonymous unauthenticated context) and derive the authenticated flag
from the anonymous check plus the inline unsigned check; all other
requests require processJwt to succeed and are then marked
authenticated. -/
def authPhase (cfg : Config) (oracle : String → TokenMeta) (r : McpRequest) :
    Except AuthErrorKind (AuthContext × Bool) :=
  if isPublicEndpoint r then
    match processJwt cfg oracle r.authHeader true with
    | .error _ => .ok (createAnonymousAuth, false)
    | .ok auth =>
      if auth.userId == "anonymous" then .ok (auth, false)
      else
        let isUnsigned :=
          match extractToken r.authHeader with
          | none => true
          | some raw => transportUnsignedCheck (oracle raw)
        .ok (auth, !isUnsigned)
  else
    match processJwt cfg oracle r.authHeader false with
    | .error e => .error e
    | .ok auth => .ok (auth, true)

/-- Error shaping of the pipeline's catch block: substring checks on
the thrown message select the response status and body. -/
def catchMap (msg : String) : Nat × McpErr :=
  if strContains msg "No authorization token provided" then (401, .missingToken)
  else if strContains msg "Invalid authorization format" then (401, .invalidAuthFormat)
  else if strContains msg "Empty token provided" then (401, .emptyToken)
  else if strContains msg "Authentication failed: Your token has expired" then (401, .invalidToken)
  else if strContains msg "Authentication failed" then (401, .tokenVerificationFailed)
  else (500, .internalServerError)

/-! ## Dispatcher (MCP SDK server, per request)

Modelled from the spec where the SDK's behavior is concerned: a
successful dispatch travels over HTTP 200; tools/list returns the
registered tool names; tools/call looks the tool up by name and, when
it is not registered, answers with the JSON-RPC method-not-found code
-32601 so that protected tool names are not revealed. -/

/-- Response of one POST /mcp request. -/
inductive Response where
  | toolsList (status : Nat) (tools : List String)
  | toolResult (status : Nat) (w : WhoamiResult)
  | domainToolResult (status : Nat) (name : String)
  | rpcError (status : Nat) (code : Int)
  | httpError (status : Nat) (err : McpErr)
  | acknowledged (status : Nat)
deriving DecidableEq

/-- HTTP status of a response. -/
def Response.status : Response → Nat
  | .toolsList s _ => s
  | .toolResult s _ => s
  | .domainToolResult s _ => s
  | .rpcError s _ => s
  | .httpError s _ => s
  | .acknowledged s => s

/-- Dispatch of an authenticated-and-routed request against the
per-request registry. Invoking a protected tool's handler is recorded
as a store effect. -/
def dispatch (reg : List String) (cfg : Config) (oracle : String → TokenMeta)
    (r : McpRequest) : Response × List String :=
  if r.method == "tools/list" then (.toolsList 200 reg, [])
  else if r.method == "tools/call" then
    match r.toolName with
    | some n =>
      if reg.contains n then
        if n == "whoami" then
          (.toolResult 200 (whoami cfg oracle (extractToken r.authHeader)), [])
        else (.domainToolResult 200 n, [n])
      else (.rpcError 200 (-32601), [])
    | none => (.rpcError 200 (-32602), [])
  else (.acknowledged 200, [])

/-- Outcome of postRequestHandler: the HTTP response and the protected
tool handlers that actually ran (store side effects). -/
structure PostResult where
  resp : Response
  effects : List String
deriving DecidableEq

/-- The POST /mcp handler: authentication phase, per-request registry
construction, dispatch; thrown authentication errors are shaped by the
catch block and nothing is dispatched. -/
def postRequestHandler (cfg : Config) (oracle : String → TokenMeta)
    (promptSupported : Bool) (r : McpRequest) : PostResult :=
  match authPhase cfg oracle r with
  | .error e =>
    let sb := catchMap (errMessage e)
    { resp := .httpError sb.1 sb.2, effects := [] }
  | .ok (_, isAuthenticated) =>
    let reg := registeredToolNames isAuthenticated promptSupported
    let de := dispatch reg cfg oracle r
    { resp := de.1, effects := de.2 }

/-- Verified caller in the sense of the spec's AuthContext: a token was
extracted, it is not unsigned, Cognito verification is configured and
the signature, issuer and audience checks passed. -/
def specVerified (cfg : Config) (oracle : String → TokenMeta) (header : Option String) : Bool :=
  match extractToken header with
  | none => false
  | some raw =>
    let m := oracle raw
    !(isUnsignedToken raw m) && cfg.cognitoConfigured && m.verified

/-! ## Session requests (transport.js sessionRequestHandler) -/

/-- HTTP verbs routed on the mcp path. -/
inductive HttpVerb where
  | get
  | post
  | delete
deriving DecidableEq

/-- Reply of the session request handler. -/
structure SessionReply where
  status : Nat
  headers : List (String × String)
  body : McpErrorBody
deriving DecidableEq

/-- The GET and DELETE handler on the mcp path: always 405 with an
Allow POST header and the method-not-allowed body. -/
def sessionRequestHandler : SessionReply :=
  { status := 405, headers := [("Allow", "POST")], body := mcpErrors .methodNotAllowed }

/-- Result of routing one request on the mcp path. -/
inductive RouteResult where
  | post (p : PostResult)
  | session (s : SessionReply)
deriving DecidableEq

/-- Routing performed by bootstrap: POST goes to postRequestHandler,
GET and DELETE to sessionRequestHandler. -/
def mcpRoute (verb : HttpVerb) (cfg : Config) (oracle : String → TokenMeta)
    (promptSupported : Bool) (r : McpRequest) : RouteResult :=
  match verb with
  | .post => .post (postRequestHandler cfg oracle promptSupported r)
  | .get => .session sessionRequestHandler
  | .delete => .session sessionRequestHandler

/-! ## Tenant credential vendor (services/dynamoDb.ts) -/

/-- Short-lived credentials returned by the platform. -/
structure StsCredentials where
  accessKeyId : String
  secretAccessKey : String
  sessionToken : Option String
deriving DecidableEq

/-- Response of the AssumeRole call; credentials may be absent. -/
structure StsResponse where
  credentials : Option StsCredentials
deriving DecidableEq

/-- The AssumeRole request assembled by getDynamoDbClient. -/
structure AssumeRoleCommand where
  roleArn : Option String
  roleSessionName : String
  tags : List (String × String)
deriving DecidableEq

/-- Environment read by the credential vendor. -/
structure VendorEnv where
  roleArn : Option String
  awsDefaultRegion : Option String
deriving DecidableEq

/-- The data-plane client produced on success. -/
structure DynamoDbClient where
  credentials : StsCredentials
  region : String
deriving DecidableEq

/-- Command construction of getDynamoDbClient: the configured role ARN,
the fixed session name, and a single session tag carrying the tenant id. -/
def buildAssumeRoleCommand (env : VendorEnv) (tenantId : String) : AssumeRoleCommand :=
  { roleArn := env.roleArn
    roleSessionName := "TenantSession"
    tags := [("tenantId", tenantId)] }

/-- The credential vendor, as in getDynamoDbClient: send one AssumeRole
command; on credentials build the client, on absent credentials throw,
on a send error rethrow. The list of commands actually sent is returned
alongside so that retry behavior is observable. -/
def getDynamoDbClient (env : VendorEnv)
    (sts : AssumeRoleCommand → Except String StsResponse) (tenantId : String) :
    List AssumeRoleCommand × Except String DynamoDbClient :=
  let command := buildAssumeRoleCommand env tenantId
  match sts command with
  | .error e => ([command], .error e)
  | .ok response =>
    match response.credentials with
    | some c =>
      ([command], .ok { credentials := c, region := jsOr env.awsDefaultRegion "us-east-1" })
    | none => ([command], .error "Failed to obtain temporary credentials")

/-! ## Prompt template engine (prompts.js) -/

/-- Word characters of the JavaScript regular expression class w. -/
def isWordChar (c : Char) : Bool :=
  ('a' ≤ c && c ≤ 'z') || ('A' ≤ c && c ≤ 'Z') || ('0' ≤ c && c ≤ '9') || c = '_'

/-- Association lookup among the prompt arguments. -/
def lookupArg : List (String × String) → String → Option String
  | [], _ => none
  | (a, b) :: t, k => if a == k then some b else lookupArg t k

/-- JavaScript object indexing with an or-empty-string default, as in
the replacement callback processedArgs indexed by key, or else empty. -/
def lookupJs (l : List (String × String)) (k : String) : String :=
  match lookupArg l k with
  | some v => v
  | none => ""

/-- JavaScript falsiness of one argument: absent or the empty string. -/
def jsFalsyLookup (l : List (String × String)) (k : String) : Bool :=
  match lookupArg l k with
  | none => true
  | some v => v == ""

/-- JavaScript object assignment on the copied argument map. -/
def upsert : List (String × String) → String → String → List (String × String)
  | [], k, v => [(k, v)]
  | (a, b) :: t, k, v => if a == k then (k, v) :: t else (a, b) :: upsert t k v

/-- One template of the prompt catalog. -/
structure PromptTemplate where
  name : String
  template : String

/-- Synthetic-variable computation of processPromptTemplate: the
flight_search preferences default and the policy_compliant_booking
budget text derived from the optional budget. -/
def effectiveArgs (t : PromptTemplate) (args : List (String × String)) :
    List (String × String) :=
  let p := args
  let p :=
    if t.name == "flight_search" && jsFalsyLookup p "preferences" then
      upsert p "preferences" "any flight is fine"
    else p
  let p :=
    if t.name == "policy_compliant_booking" then
      upsert p "budget_text"
        (if jsFalsyLookup p "budget" then ""
         else "Your specified budget is " ++ lookupJs p "budget" ++ ". ")
    else p
  p

/-- One pass of the global regex replacement over the template: at each
position a placeholder is an open brace pair, a non-empty maximal word
run, and a close brace pair; it is replaced by the looked-up argument
(or the empty string) and scanning resumes after it, without rescanning
the substituted text, exactly as a JavaScript String.replace does. The
fuel argument only bounds recursion and one unit per consumed character
always suffices. -/
def renderAux (f : String → String) : Nat → List Char → List Char
  | 0, rest => rest
  | _ + 1, [] => []
  | fuel + 1, c :: cs =>
    if c = '\x7b' then
      match cs with
      | c2 :: rest =>
        if c2 = '\x7b' then
          match rest.takeWhile isWordChar, rest.dropWhile isWordChar with
          | w :: ws, d1 :: d2 :: tail =>
            if d1 = '\x7d' ∧ d2 = '\x7d' then
              (f (String.mk (w :: ws))).data ++ renderAux f fuel tail
            else c :: renderAux f fuel cs
          | _, _ => c :: renderAux f fuel cs
        else c :: renderAux f fuel cs
      | [] => c :: renderAux f fuel cs
    else c :: renderAux f fuel cs

/-- Template rendering, as in processPromptTemplate: compute the
synthetic variables, then substitute every placeholder. -/
def processPromptTemplate (t : PromptTemplate) (args : List (String × String)) : String :=
  let pArgs := effectiveArgs t args
  String.mk (renderAux (lookupJs pArgs) t.template.data.length t.template.data)

/-- Placeholder occurrence at the head of a character list. -/
def placeholderAt : List Char → Bool
  | c1 :: c2 :: rest =>
    c1 == '\x7b' && c2 == '\x7b' && !(rest.takeWhile isWordChar).isEmpty &&
      (rest.dropWhile isWordChar).take 2 == ['\x7d', '\x7d']
  | _ => false

/-- Placeholder occurrence anywhere in a character list. -/
def hasPlaceholder : List Char → Bool
  | [] => false
  | c :: cs => placeholderAt (c :: cs) || hasPlaceholder cs

/-- Templates whose braces occur only as well-formed placeholders; on
such templates every brace of the source text is consumed by the
substitution pass. -/
def cleanTemplateAux : Nat → List Char → Bool
  | 0, l => l.isEmpty
  | _ + 1, [] => true
  | fuel + 1, c :: cs =>
    if c = '\x7b' then
      match cs with
      | c2 :: rest =>
        if c2 = '\x7b' then
          match rest.takeWhile isWordChar, rest.dropWhile isWordChar with
          | _ :: _, d1 :: d2 :: tail =>
            if d1 = '\x7d' ∧ d2 = '\x7d' then cleanTemplateAux fuel tail else false
          | _, _ => false
        else false
      | [] => false
    else if c = '\x7d' then false
    else cleanTemplateAux fuel cs

/-- Cleanness of a full template. -/
def cleanTemplate (l : List Char) : Bool :=
  cleanTemplateAux l.length l

/-- Brace-free strings: substituted values of this shape can never
create a new placeholder. -/
def braceFree (s : String) : Bool :=
  !(s.data.contains '\x7b' || s.data.contains '\x7d')

/-- The flight_search template of the prompt catalog, verbatim. -/
def flightSearchPrompt : PromptTemplate :=
  { name := "flight_search"
    template := "I'll help you search for flights from \x7b\x7borigin\x7d\x7d to \x7b\x7bdestination\x7d\x7d on \x7b\x7bdate\x7d\x7d.\n\nLet me search for available options using the flight search tool.\n\n<use_tool>\nfind_flights with origin: \"\x7b\x7borigin\x7d\x7d\", destination: \"\x7b\x7bdestination\x7d\x7d\", departure: \"\x7b\x7bdate\x7d\x7d\"\n</use_tool>\n\nBased on your preferences: \x7b\x7bpreferences\x7d\x7d\n\nI'll analyze the results and highlight:\n1. Best value options\n2. Most convenient times\n3. Loyalty program benefits\n4. Available seat classes\n\nWould you like me to search for return flights as well?" }

/-! ## Concrete scenarios used by counterexamples and witnesses -/

/-- Deployment with Cognito verification configured. -/
def cfgCognito : Config := { cognitoConfigured := true }

/-- Payload decoded from the forged token below. -/
def forgedPayload : Payload :=
  { sub := some "user1", customTenantId := some "ABC123", tenantId := none,
    customTenantTier := none, tenantTier := none }

/-- Token that looks signed (RS256 header with a key id) but fails the
Cognito signature check, while still decoding to a payload. -/
def forgedMeta : TokenMeta :=
  { partsGE2 := true, headerDecode := some { alg := some "RS256", kid := some "kid1" },
    payload := some forgedPayload, verified := false, verifyErr := .invalidSignature }

/-- Oracle serving the forged token. -/
def forgedOracle : String → TokenMeta := fun _ => forgedMeta

/-- Authorization header carrying the forged token. -/
def forgedHeader : Option String := some "Bearer forged.token.sig"

/-- Unsigned token of the spec's boundary example: header with alg none
and no key id, with a decodable payload. -/
def unsignedMeta : TokenMeta :=
  { partsGE2 := true, headerDecode := some { alg := some "none", kid := none },
    payload := some forgedPayload, verified := false, verifyErr := .other }

/-- Oracle serving the unsigned token. -/
def unsignedOracle : String → TokenMeta := fun _ => unsignedMeta

/-- Properly verified token: signed RS256 with a key id, verification
succeeded, payload decoded. -/
def verifiedMeta : TokenMeta :=
  { partsGE2 := true, headerDecode := some { alg := some "RS256", kid := some "kid1" },
    payload := some forgedPayload, verified := true, verifyErr := .other }

/-- Oracle serving the verified token. -/
def verifiedOracle : String → TokenMeta := fun _ => verifiedMeta

/-! ## Theorems -/

/-- C2: a POST tools/list request with no Authorization header is
answered with HTTP 200 and a tool list containing exactly the whoami
entry; no tool registered for authenticated callers appears. -/
theorem c2_anonymous_tools_list (cfg : Config) (oracle : String → TokenMeta) :
    postRequestHandler cfg oracle true
      { jsonrpcOk := true, method := "tools/list", toolName := none, authHeader := none }
      = { resp := .toolsList 200 ["whoami"], effects := [] } := rfl

/-- C9: GET and DELETE on the mcp path are routed to the session
request handler, which for every caller and state answers 405 with an
Allow POST header and a JSON-RPC-shaped method-not-allowed body. -/
theorem c9_get_delete_405 (cfg : Config) (oracle : String → TokenMeta)
    (promptSupported : Bool) (r : McpRequest) :
    mcpRoute .get cfg oracle promptSupported r = .session sessionRequestHandler ∧
    mcpRoute .delete cfg oracle promptSupported r = .session sessionRequestHandler ∧
    sessionRequestHandler.status = 405 ∧
    ("Allow", "POST") ∈ sessionRequestHandler.headers ∧
    sessionRequestHandler.body = mcpErrors .methodNotAllowed ∧
    (mcpErrors .methodNotAllowed).jsonrpc = "2.0" :=
  ⟨rfl, rfl, rfl, by simp [sessionRequestHandler], rfl, rfl⟩

/-- C8: the credential vendor issues exactly one AssumeRole command,
carrying the configured role ARN, the fixed session name and exactly
one session tag binding tenantId to the given tenant; issuance errors
and missing credentials surface as errors, and every command ever sent
carries the given tenant's tag, so no retry with a different tenant
exists. -/
theorem c8_credential_vendor (env : VendorEnv)
    (sts : AssumeRoleCommand → Except String StsResponse) (tenantId : String) :
    (getDynamoDbClient env sts tenantId).1 = [buildAssumeRoleCommand env tenantId] ∧
    (buildAssumeRoleCommand env tenantId).roleArn = env.roleArn ∧
    (buildAssumeRoleCommand env tenantId).roleSessionName = "TenantSession" ∧
    (buildAssumeRoleCommand env tenantId).tags = [("tenantId", tenantId)] ∧
    (∀ e, sts (buildAssumeRoleCommand env tenantId) = .error e →
      (getDynamoDbClient env sts tenantId).2 = .error e) ∧
    (∀ resp, sts (buildAssumeRoleCommand env tenantId) = .ok resp →
      resp.credentials = none →
      (getDynamoDbClient env sts tenantId).2 = .error "Failed to obtain temporary credentials") ∧
    (∀ c, c ∈ (getDynamoDbClient env sts tenantId).1 → c.tags = [("tenantId", tenantId)]) := by
  refine ⟨?_, rfl, rfl, rfl, ?_, ?_, ?_⟩
  · rcases h : sts (buildAssumeRoleCommand env tenantId) with e | resp
    · simp [getDynamoDbClient, h]
    · rcases hc : resp.credentials with _ | c <;> simp [getDynamoDbClient, h, hc]
  · intro e h
    simp [getDynamoDbClient, h]
  · intro resp h hc
    simp [getDynamoDbClient, h, hc]
  · intro c hc
    rcases h : sts (buildAssumeRoleCommand env tenantId) with e | resp
    · simp [getDynamoDbClient, h] at hc
      subst hc
      rfl
    · rcases hcr : resp.credentials with _ | cr <;>
        simp [getDynamoDbClient, h, hcr] at hc <;> subst hc <;> rfl

/-- C8 witness: with a failing credential issuance the vendor
propagates the error. -/
theorem c8_credential_vendor_witness :
    (getDynamoDbClient { roleArn := some "arn:aws:iam::123:role/TenantRole", awsDefaultRegion := none }
      (fun _ => .error "AccessDenied") "ABC123").2 = .error "AccessDenied" :=
  (c8_credential_vendor _ _ _).2.2.2.2.1 "AccessDenied" rfl

/-- C5: the unsigned-token classifier fires exactly on empty tokens,
tokens with fewer than two dot-segments, tokens whose header does not
decode, and tokens whose decoded header has a falsy or none algorithm
or a falsy key id; and an unsigned token is rejected by the JWT
pipeline when authentication is required while being accepted (never
an error) when anonymous access is allowed. -/
theorem c5_unsigned_token_classifier :
    (∀ (raw : String) (m : TokenMeta),
      isUnsignedToken raw m = true ↔
        ((trimL raw.data).isEmpty = true ∨ m.partsGE2 = false ∨ m.headerDecode = none ∨
          ∃ h, m.headerDecode = some h ∧
            (h.alg = some "none" ∨ jsFalsyOpt h.alg = true ∨ jsFalsyOpt h.kid = true))) ∧
    (∀ (cfg : Config) (oracle : String → TokenMeta) (header : Option String) (raw : String),
      extractToken header = some raw →
      isUnsignedToken raw (oracle raw) = true →
      (processJwt cfg oracle header false = .error .unsignedNotAccepted ∧
        ∃ a, processJwt cfg oracle header true = .ok a)) := by
  constructor
  · intro raw m
    rcases hh : m.headerDecode with _ | h <;>
      by_cases h1 : (trimL raw.data).isEmpty <;>
      by_cases h2 : m.partsGE2 = true <;>
      simp [isUnsignedToken, hh, h1, h2, Bool.or_eq_true, beq_iff_eq, or_assoc]
  · intro cfg oracle header raw hext hu
    constructor
    · unfold processJwt
      rw [hext]
      simp [hu]
    · unfold processJwt
      rw [hext]
      rcases hp : (oracle raw).payload with _ | p <;> simp [hu, hp]

/-- C5 witness: the boundary token with an alg-none header and no key
id is classified unsigned and rejected on the protected path. -/
theorem c5_unsigned_token_classifier_witness :
    isUnsignedToken "eyJhbGciOiJub25lIiwidHlwIjoiSldUIn0.eyJzdWIiOiJ1c2VyMSJ9." unsignedMeta = true ∧
    processJwt cfgCognito unsignedOracle
      (some "Bearer eyJhbGciOiJub25lIiwidHlwIjoiSldUIn0.eyJzdWIiOiJ1c2VyMSJ9.") false
      = .error .unsignedNotAccepted := by
  constructor
  · exact (c5_unsigned_token_classifier.1 _ unsignedMeta).mpr
      (Or.inr (Or.inr (Or.inr ⟨{ alg := some "none", kid := none }, rfl, Or.inl rfl⟩)))
  · exact (c5_unsigned_token_classifier.2 cfgCognito unsignedOracle
      (some "Bearer eyJhbGciOiJub25lIiwidHlwIjoiSldUIn0.eyJzdWIiOiJ1c2VyMSJ9.")
      "eyJhbGciOiJub25lIiwidHlwIjoiSldUIn0.eyJzdWIiOiJ1c2VyMSJ9." (by decide) (by decide)).1

/-- C6 counterexample: an Authorization header that is exactly the
Bearer prefix followed by a space is surfaced by the pipeline as
missing-token, not as the distinct empty-token reason the claim
requires. -/
theorem c6_counterexample :
    postRequestHandler cfgCognito forgedOracle true
      { jsonrpcOk := true, method := "tools/call", toolName := some "list_bookings",
        authHeader := some "Bearer " }
      = { resp := .httpError 401 .missingToken, effects := [] } ∧
    McpErr.missingToken ≠ McpErr.emptyToken :=
  ⟨by decide, by decide⟩

/-- C6 amended: a request for a protected tool whose Authorization
header is exactly the Bearer prefix followed by a space is collapsed by
token extraction to an absent token, so the pipeline surfaces the
missing-token failure; the empty-token entry of the error table is
never produced on this input. -/
theorem c6_amended (cfg : Config) (oracle : String → TokenMeta) (ps : Bool) (n : String)
    (hn : n ∈ protectedToolNames) :
    postRequestHandler cfg oracle ps
      { jsonrpcOk := true, method := "tools/call", toolName := some n,
        authHeader := some "Bearer " }
      = { resp := .httpError 401 .missingToken, effects := [] } := by
  simp [protectedToolNames] at hn
  rcases hn with rfl | rfl | rfl | rfl | rfl | rfl <;> rfl

/-- C6 amended witness at the find_flights tool. -/
theorem c6_amended_witness :
    postRequestHandler cfgCognito unsignedOracle true
      { jsonrpcOk := true, method := "tools/call", toolName := some "find_flights",
        authHeader := some "Bearer " }
      = { resp := .httpError 401 .missingToken, effects := [] } :=
  c6_amended cfgCognito unsignedOracle true "find_flights" (by decide)

/-- C1 counterexample: a tools/call of the protected list_bookings tool
by a caller with no token is answered with HTTP 401 carrying the
missing-token error, not with the HTTP 200 JSON-RPC error the claim
requires. -/
theorem c1_counterexample :
    postRequestHandler cfgCognito forgedOracle true
      { jsonrpcOk := true, method := "tools/call", toolName := some "list_bookings",
        authHeader := none }
      = { resp := .httpError 401 .missingToken, effects := [] } ∧
    Response.status (.httpError 401 .missingToken) ≠ 200 :=
  ⟨by decide, by decide⟩

/-- C1 amended: with Cognito verification configured, every tools/call
of a protected tool by an unverified caller (token absent, unsigned, or
failing verification) is rejected before dispatch with HTTP 401 and one
of the missing-token, token-invalid or token-verification-failed
bodies — never a distinct forbidden, and never revealing the tool — and
no store side effect occurs. -/
theorem c1_amended (cfg : Config) (oracle : String → TokenMeta) (ps : Bool)
    (header : Option String) (n : String)
    (hcfg : cfg.cognitoConfigured = true)
    (hn : n ∈ protectedToolNames)
    (hunv : specVerified cfg oracle header = false) :
    ∃ e, postRequestHandler cfg oracle ps
        { jsonrpcOk := true, method := "tools/call", toolName := some n, authHeader := header }
        = { resp := .httpError 401 e, effects := [] } ∧
      (e = .missingToken ∨ e = .invalidToken ∨ e = .tokenVerificationFailed) := by
  have hnw : (some n == some "whoami") = false := by
    simp [protectedToolNames] at hn
    rcases hn with rfl | rfl | rfl | rfl | rfl | rfl <;> rfl
  have hpub : isPublicEndpoint
      { jsonrpcOk := true, method := "tools/call", toolName := some n, authHeader := header }
      = false := by
    simp [isPublicEndpoint, isWhoamiCall, publicMethods, hnw]
  unfold postRequestHandler authPhase
  rw [hpub]
  simp only [Bool.false_eq_true, if_false]
  unfold processJwt
  rcases hext : extractToken header with _ | raw
  · refine ⟨.missingToken, ?_, Or.inl rfl⟩
    simp
    decide
  · simp only []
    by_cases hu : isUnsignedToken raw (oracle raw)
    · refine ⟨.tokenVerificationFailed, ?_, Or.inr (Or.inr rfl)⟩
      simp [hu]
      decide
    · have hver : (oracle raw).verified = false := by
        unfold specVerified at hunv
        rw [hext] at hunv
        simp [hu, hcfg] at hunv
        exact hunv
      rcases hve : (oracle raw).verifyErr with _ | _ | _ | _ | _
      · refine ⟨.invalidToken, ?_, Or.inr (Or.inl rfl)⟩
        simp [hu, hcfg, hver, hve, mapVerifyErr]
        decide
      all_goals refine ⟨.tokenVerificationFailed, ?_, Or.inr (Or.inr rfl)⟩
      all_goals simp [hu, hcfg, hver, hve, mapVerifyErr]
      all_goals decide

/-- C1 amended witness: the unsigned boundary token calling
list_bookings is rejected with 401. -/
theorem c1_amended_witness :
    ∃ e, postRequestHandler cfgCognito unsignedOracle true
        { jsonrpcOk := true, method := "tools/call", toolName := some "list_bookings",
          authHeader := some "Bearer x.y" }
        = { resp := .httpError 401 e, effects := [] } ∧
      (e = .missingToken ∨ e = .invalidToken ∨ e = .tokenVerificationFailed) :=
  c1_amended cfgCognito unsignedOracle true (some "Bearer x.y") "list_bookings"
    rfl (by decide) (by decide)

/-- C3: at the forged signed-looking token that fails verification but
still decodes, the tool set listed by tools/list strictly exceeds the
set reachable by tools/call under the same caller: the protected
list_bookings tool is listed with HTTP 200 while calling it is rejected
with HTTP 401, so the listed and invocable sets differ. -/
theorem c3_list_call_mismatch :
    (postRequestHandler cfgCognito forgedOracle true
      { jsonrpcOk := true, method := "tools/list", toolName := none,
        authHeader := forgedHeader }).resp
      = .toolsList 200 (registeredToolNames true true) ∧
    "list_bookings" ∈ registeredToolNames true true ∧
    (postRequestHandler cfgCognito forgedOracle true
      { jsonrpcOk := true, method := "tools/call", toolName := some "list_bookings",
        authHeader := forgedHeader }).resp
      = .httpError 401 .tokenVerificationFailed :=
  ⟨by decide, by decide, by decide⟩

/-- C4: at the forged signed-looking token that fails verification but
still decodes, the caller is not verified in the spec's sense, yet the
authentication phase marks the request authenticated and the
per-request registry therefore exposes the protected tools. -/
theorem c4_registry_exposed_unverified :
    specVerified cfgCognito forgedOracle forgedHeader = false ∧
    authPhase cfgCognito forgedOracle
      { jsonrpcOk := true, method := "tools/list", toolName := none,
        authHeader := forgedHeader }
      = .ok (authFromPayload forgedPayload "forged.token.sig", true) ∧
    "list_bookings" ∈ registeredToolNames true true :=
  ⟨by decide, by rfl, by decide⟩

/-- Helper: the JWT pipeline never throws when anonymous access is
allowed, matching the transport's expectation for public endpoints. -/
theorem processJwt_anonymous_ok (cfg : Config) (oracle : String → TokenMeta)
    (header : Option String) :
    ∃ a, processJwt cfg oracle header true = .ok a := by
  unfold processJwt
  rcases hext : extractToken header with _ | raw
  · exact ⟨createAnonymousAuth, rfl⟩
  · by_cases hu : isUnsignedToken raw (oracle raw) = true
    · rcases hp : (oracle raw).payload with _ | p
      · exact ⟨createAnonymousAuth, by simp [hu, hp]⟩
      · exact ⟨authFromPayload p raw, by simp [hu, hp]⟩
    · by_cases hcc : cfg.cognitoConfigured = true
      · by_cases hv : (oracle raw).verified = true
        · rcases hp : (oracle raw).payload with _ | p
          · exact ⟨authFromPayload ⟨none, none, none, none, none⟩ raw,
              by simp [hu, hcc, hv, hp]⟩
          · exact ⟨authFromPayload p raw, by simp [hu, hcc, hv, hp]⟩
        · rcases hp : (oracle raw).payload with _ | p
          · exact ⟨createAnonymousAuth, by simp [hu, hcc, hv, hp]⟩
          · exact ⟨authFromPayload p raw, by simp [hu, hcc, hv, hp]⟩
      · rcases hp : (oracle raw).payload with _ | p
        · exact ⟨createAnonymousAuth, by simp [hu, hcc, hp]⟩
        · exact ⟨authFromPayload p raw, by simp [hu, hcc, hp]⟩

/-- Helper: dispatching a tools/call of whoami against any registry
containing it runs the whoami handler on the extracted token. -/
theorem dispatch_whoami (reg : List String) (cfg : Config)
    (oracle : String → TokenMeta) (header : Option String)
    (hreg : reg.contains "whoami" = true) :
    dispatch reg cfg oracle
      { jsonrpcOk := true, method := "tools/call", toolName := some "whoami",
        authHeader := header }
      = (.toolResult 200 (whoami cfg oracle (extractToken header)), []) := by
  have hmem : "whoami" ∈ reg := by simpa using hreg
  unfold dispatch
  simp [hreg, hmem]

/-- Helper: every per-request registry contains whoami. -/
theorem registeredToolNames_whoami (b ps : Bool) :
    (registeredToolNames b ps).contains "whoami" = true := rfl

/-- C7: a tools/call of whoami reaches the whoami handler for every
caller (anonymous, unsigned, signed-invalid, signed-valid) over HTTP
200, and the handler's authenticated field is true exactly when the
caller is verified in the spec's sense (token present, not unsigned,
Cognito configured, signature with issuer and audience passed); the
hypothesis states that a token the platform verifies also decodes. -/
theorem c7_whoami_iff_verified (cfg : Config) (oracle : String → TokenMeta) (ps : Bool)
    (header : Option String)
    (hWF : ∀ raw, (oracle raw).verified = true → ((oracle raw).payload).isSome = true) :
    (postRequestHandler cfg oracle ps
      { jsonrpcOk := true, method := "tools/call", toolName := some "whoami",
        authHeader := header }).resp
      = .toolResult 200 (whoami cfg oracle (extractToken header)) ∧
    ((whoami cfg oracle (extractToken header)).authenticated = true ↔
      specVerified cfg oracle header = true) := by
  constructor
  · obtain ⟨a, ha⟩ := processJwt_anonymous_ok cfg oracle header
    have hpub : isPublicEndpoint
        { jsonrpcOk := true, method := "tools/call", toolName := some "whoami",
          authHeader := header } = true := rfl
    unfold postRequestHandler authPhase
    rw [hpub, ha]
    by_cases han : (a.userId == "anonymous") = true
    · simp [han, dispatch_whoami _ cfg oracle header (registeredToolNames_whoami false ps)]
    · simp [han, dispatch_whoami _ cfg oracle header (registeredToolNames_whoami _ ps)]
  · rcases hext : extractToken header with _ | raw
    · simp [whoami, specVerified, hext]
    · unfold whoami specVerified
      rw [hext]
      by_cases ht : (trimL raw.data).isEmpty = true
      · have hu : isUnsignedToken raw (oracle raw) = true := by
          simp [isUnsignedToken, ht]
        simp [whoamiVerifyToken, ht, hu]
      · rcases hp : (oracle raw).payload with _ | p
        · have hv : (oracle raw).verified = false := by
            rcases h : (oracle raw).verified with _ | _
            · rfl
            · have hps := hWF raw h
              rw [hp] at hps
              simp at hps
          simp [whoamiVerifyToken, ht, hp, hv]
        · by_cases hcc : cfg.cognitoConfigured = true
          · by_cases hv : (oracle raw).verified = true
            · simp [whoamiVerifyToken, ht, hp, hcc, hv, Bool.and_comm]
            · simp only [Bool.not_eq_true] at hv
              simp [whoamiVerifyToken, ht, hp, hcc, hv]
          · simp only [Bool.not_eq_true] at hcc
            simp [whoamiVerifyToken, ht, hp, hcc]

/-- C7 witness: with the verified token the whoami report and the
spec-level verification agree. -/
theorem c7_whoami_iff_verified_witness :
    ((whoami cfgCognito verifiedOracle (extractToken (some "Bearer good.token.sig"))).authenticated = true ↔
      specVerified cfgCognito verifiedOracle (some "Bearer good.token.sig") = true) :=
  (c7_whoami_iff_verified cfgCognito verifiedOracle true (some "Bearer good.token.sig")
    (fun _ _ => rfl)).2

/-- Helper: a list not starting with an open brace has no placeholder
at its head. -/
theorem placeholderAt_of_head_ne (c : Char) (xs : List Char) (hc : c ≠ '\x7b') :
    placeholderAt (c :: xs) = false := by
  cases xs with
  | nil => rfl
  | cons a as => simp [placeholderAt, hc]

/-- Helper: an open-brace-free prefix contributes no placeholder. -/
theorem hasPlaceholder_append (a b : List Char) (ha : a.contains '\x7b' = false) :
    hasPlaceholder (a ++ b) = hasPlaceholder b := by
  induction a with
  | nil => rfl
  | cons c t ih =>
    simp only [List.contains_cons, Bool.or_eq_false_iff] at ha
    have hc : c ≠ '\x7b' := by
      intro h
      rw [h] at ha
      simp at ha
    rw [List.cons_append]
    unfold hasPlaceholder
    rw [placeholderAt_of_head_ne _ _ hc, ih ha.2]
    cases b <;> simp [hasPlaceholder]

/-- Helper: cleanness does not depend on the fuel bound once it covers
the list length. -/
theorem cleanTemplateAux_fuel (f1 : Nat) : ∀ (f2 : Nat) (l : List Char),
    l.length ≤ f1 → l.length ≤ f2 → cleanTemplateAux f1 l = cleanTemplateAux f2 l := by
  induction f1 with
  | zero =>
    intro f2 l h1 _
    have hl : l = [] := List.eq_nil_of_length_eq_zero (Nat.le_zero.mp h1)
    subst hl
    cases f2 <;> rfl
  | succ f1 ih =>
    intro f2 l h1 h2
    cases f2 with
    | zero =>
      have hl : l = [] := List.eq_nil_of_length_eq_zero (Nat.le_zero.mp h2)
      subst hl
      rfl
    | succ f2 =>
      cases l with
      | nil => rfl
      | cons c cs =>
        unfold cleanTemplateAux
        by_cases hc : c = '\x7b'
        · subst hc
          rw [if_pos rfl, if_pos rfl]
          cases cs with
          | nil => rfl
          | cons c2 rest =>
            by_cases hc2 : c2 = '\x7b'
            · subst hc2
              rcases htw : rest.takeWhile isWordChar with _ | ⟨w, ws⟩
              · simp [htw]
              · rcases hdw : rest.dropWhile isWordChar with _ | ⟨d1, r1⟩
                · simp [htw, hdw]
                · rcases r1 with _ | ⟨d2, tail⟩
                  · simp [htw, hdw]
                  · by_cases hd : d1 = '\x7d' ∧ d2 = '\x7d'
                    · obtain ⟨hd1, hd2⟩ := hd
                      subst hd1
                      subst hd2
                      simp only [htw, hdw, if_pos rfl, and_self, if_true]
                      have hsl : (rest.dropWhile isWordChar).length ≤ rest.length :=
                        (List.dropWhile_sublist _).length_le
                      rw [hdw] at hsl
                      simp only [List.length_cons] at hsl h1 h2
                      exact ih f2 tail (by omega) (by omega)
                    · simp [htw, hdw, hd]
            · simp [hc2]
        · rw [if_neg hc, if_neg hc]
          by_cases hd : c = '\x7d'
          · rw [if_pos hd, if_pos hd]
          · rw [if_neg hd, if_neg hd]
            simp only [List.length_cons] at h1 h2
            exact ih f2 cs (by omega) (by omega)

/-- Helper: rendering a clean template with open-brace-free
substitution values yields a placeholder-free output. -/
theorem renderAux_no_placeholder (f : String → String)
    (hf : ∀ k, ((f k).data).contains '\x7b' = false) :
    ∀ (fuel : Nat) (l : List Char), l.length ≤ fuel → cleanTemplate l = true →
    hasPlaceholder (renderAux f fuel l) = false := by
  intro fuel
  induction fuel with
  | zero =>
    intro l h1 _
    have hl : l = [] := List.eq_nil_of_length_eq_zero (Nat.le_zero.mp h1)
    subst hl
    rfl
  | succ fuel ih =>
    intro l h1 hclean
    cases l with
    | nil => rfl
    | cons c cs =>
      by_cases hc : c = '\x7b'
      · subst hc
        cases cs with
        | nil => simp [cleanTemplate, cleanTemplateAux] at hclean
        | cons c2 rest =>
          by_cases hc2 : c2 = '\x7b'
          · subst hc2
            rcases htw : rest.takeWhile isWordChar with _ | ⟨w, ws⟩
            · simp [cleanTemplate, cleanTemplateAux, htw] at hclean
            · rcases hdw : rest.dropWhile isWordChar with _ | ⟨d1, r1⟩
              · simp [cleanTemplate, cleanTemplateAux, htw, hdw] at hclean
              · rcases r1 with _ | ⟨d2, tail⟩
                · simp [cleanTemplate, cleanTemplateAux, htw, hdw] at hclean
                · by_cases hd : d1 = '\x7d' ∧ d2 = '\x7d'
                  · obtain ⟨hd1, hd2⟩ := hd
                    subst hd1
                    subst hd2
                    have hred : renderAux f (fuel + 1) ('\x7b' :: '\x7b' :: rest)
                        = (f (String.mk (w :: ws))).data ++ renderAux f fuel tail := by
                      conv_lhs => unfold renderAux
                      simp [htw, hdw]
                    rw [hred]
                    have hsl : (rest.dropWhile isWordChar).length ≤ rest.length :=
                      (List.dropWhile_sublist _).length_le
                    rw [hdw] at hsl
                    simp only [List.length_cons] at hsl h1
                    have hcl : cleanTemplate tail = true := by
                      simp only [cleanTemplate, cleanTemplateAux, List.length_cons,
                        htw, hdw, and_self, if_true, eq_self_iff_true] at hclean
                      rw [cleanTemplateAux_fuel (rest.length + 1) tail.length tail
                        (by omega) (by omega)] at hclean
                      exact hclean
                    rw [hasPlaceholder_append _ _ (hf _)]
                    exact ih tail (by omega) hcl
                  · simp [cleanTemplate, cleanTemplateAux, htw, hdw, hd] at hclean
          · simp [cleanTemplate, cleanTemplateAux, hc2] at hclean
      · by_cases hd : c = '\x7d'
        · simp [cleanTemplate, cleanTemplateAux, hc, hd] at hclean
        · have hcl : cleanTemplate cs = true := by
            simp only [cleanTemplate, cleanTemplateAux, List.length_cons,
              if_neg hc, if_neg hd] at hclean
            exact hclean
          have hred : renderAux f (fuel + 1) (c :: cs) = c :: renderAux f fuel cs := by
            conv_lhs => unfold renderAux
            rw [if_neg hc]
          rw [hred]
          unfold hasPlaceholder
          rw [placeholderAt_of_head_ne _ _ hc]
          simp only [List.length_cons] at h1
          rw [ih cs (by omega) hcl]
          rfl

/-- Helper: a lookup over brace-free argument values is brace-free. -/
theorem lookupJs_braceFree (l : List (String × String)) (k : String)
    (h : ∀ kv ∈ l, braceFree kv.2 = true) : braceFree (lookupJs l k) = true := by
  induction l with
  | nil => rfl
  | cons a t ih =>
    obtain ⟨a1, a2⟩ := a
    unfold lookupJs lookupArg
    by_cases hk : (a1 == k) = true
    · rw [if_pos hk]
      exact h (a1, a2) (List.mem_cons_self _ _)
    · rw [if_neg hk]
      exact ih fun kv hm => h kv (List.mem_cons_of_mem _ hm)

/-- Helper: brace-free strings contain no open brace. -/
theorem braceFree_no_open (s : String) (h : braceFree s = true) :
    (s.data).contains '\x7b' = false := by
  unfold braceFree at h
  simp only [Bool.not_eq_true', Bool.or_eq_false_iff] at h
  exact h.1

set_option maxRecDepth 100000

/-- C10 counterexample: rendering the catalog's flight_search template
with an argument value that itself spells a placeholder produces an
output that still contains a word-named placeholder, refuting the claim
that the rendered string never does. -/
theorem c10_counterexample :
    hasPlaceholder (processPromptTemplate flightSearchPrompt
      [("origin", "\x7b\x7bboom\x7d\x7d"), ("destination", "BOS"),
        ("date", "2026-01-01")]).data = true := by
  decide

/-- C10 amended: rendering is a total deterministic function; for every
template whose braces occur only as well-formed placeholders and every
argument map whose effective values (after the synthetic-variable
computation, with absent or empty arguments replaced by the empty
string) contain no brace characters, the rendered string contains no
remaining word-named placeholder. -/
theorem c10_amended (t : PromptTemplate) (args : List (String × String))
    (hclean : cleanTemplate t.template.data = true)
    (hvals : ∀ kv ∈ effectiveArgs t args, braceFree kv.2 = true) :
    hasPlaceholder (processPromptTemplate t args).data = false := by
  unfold processPromptTemplate
  exact renderAux_no_placeholder _
    (fun k => braceFree_no_open _ (lookupJs_braceFree _ k hvals))
    _ _ (Nat.le_refl _) hclean

/-- C10 amended witness: the flight_search template with brace-free
arguments renders without any remaining placeholder. -/
theorem c10_amended_witness :
    hasPlaceholder (processPromptTemplate flightSearchPrompt
      [("origin", "SFO"), ("destination", "BOS"), ("date", "2026-01-01")]).data = false :=
  c10_amended flightSearchPrompt
    [("origin", "SFO"), ("destination", "BOS"), ("date", "2026-01-01")]
    (by decide) (by decide)
